import Mathlib

/-!
Shallow embedding of the currency-converter service
(`src/unnamed/part_001`, class `ExchangeRate`) and the currency formatter
(`src/src/utils/currencyFormat.tsx`, class `CurrencyFormat`).

Numbers are modelled as rationals, JSON objects used as dictionaries as
association lists or functions to `Option`, thrown exceptions as
`Except.error`, and the network as an oracle: a list of pending provider
responses consumed in order (a `none` response models a transport/HTTP
error, which `fetchApiData` turns into a `null` result), together with a
log of the endpoints fetched so far, so that fetch counts can be stated.
State-mutating methods are state transformers returning the result
together with the updated service state and network.
-/

namespace ExchangeRateApp

/-- A supported currency: ISO-style code and display name
(`part_001` line 18, built from `supported_codes` at lines 55-58). -/
structure Currency where
  code : String
  name : String
deriving DecidableEq, Repr

/-- A conversion-rate table for one base currency: a JSON object mapping
target currency codes to numeric rates (`interface ConversionRates`). -/
abbrev ConversionRates := List (String × ℚ)

/-- A parsed provider response body: either the supported-codes document
(`interface CodesData`) or a latest-rates document (`interface CurrencyData`). -/
inductive ApiData where
  | codesData (result : String) (supported_codes : List (String × String))
  | ratesData (result : String) (conversion_rates : ConversionRates)
deriving DecidableEq, Repr

/-- The network oracle: pending provider responses consumed in order
(`none` = transport or HTTP error, which `fetchApiData` maps to `null`),
plus a log of endpoints fetched so far (most recent first). -/
structure Net where
  responses : List (Option ApiData)
  fetched : List String
deriving DecidableEq, Repr

/-- The mutable fields of the `ExchangeRate` service instance
(`part_001` lines 16-20). `updatedAt` is a millisecond timestamp. -/
structure ExchangeRateState where
  exchangeRateApiKey : Option String
  currencies : List Currency
  rates : String → Option ConversionRates
  updatedAt : Option Int

/-- The `ExchangeRate` constructor (`part_001` lines 22-27): throws when
the API key is falsy (empty string), otherwise initialises the fields. -/
def ExchangeRate.construct (apiKey : String) : Except String ExchangeRateState :=
  if apiKey = "" then Except.error "API key is required."
  else Except.ok
    { exchangeRateApiKey := some apiKey
      currencies := []
      rates := fun _ => none
      updatedAt := none }

/-- The private `fetchApiData` helper (`part_001` lines 34-47): performs one
network call to `endpoint`; any transport error or non-2xx status is caught
and becomes a `null` (`none`) result. The call is appended to the fetch log. -/
def fetchApiData (endpoint : String) (net : Net) : Option ApiData × Net :=
  match net.responses with
  | [] => (none, { responses := [], fetched := endpoint :: net.fetched })
  | r :: rest => (r, { responses := rest, fetched := endpoint :: net.fetched })

/-- The private `fetchCurrencies` method (`part_001` lines 52-60): fetches
`/codes` and, when the response is non-null with `result === "success"`,
replaces `currencies` with the mapped `supported_codes`; otherwise leaves
the state unchanged. -/
def ExchangeRate.fetchCurrencies (s : ExchangeRateState) (net : Net) :
    ExchangeRateState × Net :=
  let p := fetchApiData "/codes" net
  match p.1 with
  | some (ApiData.codesData result codes) =>
      if result = "success" then
        ({ s with currencies := codes.map (fun q => { code := q.1, name := q.2 }) }, p.2)
      else (s, p.2)
  | _ => (s, p.2)

/-- The `fetchRates` method (`part_001` lines 67-78): when `updatedAt` is
unset or older than 3,600,000 ms, fetches `/latest/{code}` and, on a
successful response, stores the table under key `code`; finally returns
`this.rates[code] || null`. Note the source never assigns `updatedAt`. -/
def ExchangeRate.fetchRates (code : String) (now : Int)
    (s : ExchangeRateState) (net : Net) :
    Option ConversionRates × ExchangeRateState × Net :=
  let stale : Bool :=
    match s.updatedAt with
    | none => true
    | some t => decide (now - t > 3600000)
  if stale then
    let p := fetchApiData ("/latest/" ++ code) net
    match p.1 with
    | some (ApiData.ratesData result cr) =>
        if result = "success" then
          let s1 := { s with rates := fun k => if k = code then some cr else s.rates k }
          (s1.rates code, s1, p.2)
        else (s.rates code, s, p.2)
    | _ => (s.rates code, s, p.2)
  else (s.rates code, s, net)

/-- The membership test `this.currencies.some((currency) => currency.code === x)`
(`part_001` lines 92 and 95). -/
def hasCode (cs : List Currency) (code : String) : Bool :=
  cs.any (fun c => c.code == code)

/-- The `convert` method (`part_001` lines 87-107): throws on a `from` or
`to` code absent from the cached currency list; returns `null` when
`fetchRates` does; throws "Exchange rate not found" when the looked-up rate
is falsy (absent key or value `0`); otherwise returns `amount * rate`. -/
def ExchangeRate.convert (fr tgt : String) (amount : ℚ) (now : Int)
    (s : ExchangeRateState) (net : Net) :
    Except String (Option ℚ) × ExchangeRateState × Net :=
  if hasCode s.currencies fr then
    if hasCode s.currencies tgt then
      let p := ExchangeRate.fetchRates fr now s net
      match p.1 with
      | none => (Except.ok none, p.2.1, p.2.2)
      | some table =>
        match table.lookup tgt with
        | none =>
            (Except.error ("Exchange rate not found for " ++ fr ++ " to " ++ tgt),
             p.2.1, p.2.2)
        | some r =>
            if r = 0 then
              (Except.error ("Exchange rate not found for " ++ fr ++ " to " ++ tgt),
               p.2.1, p.2.2)
            else (Except.ok (some (amount * r)), p.2.1, p.2.2)
    else (Except.error ("Invalid currency: " ++ tgt), s, net)
  else (Except.error ("Invalid currency: " ++ fr), s, net)

/-- The `getCurrencies` method (`part_001` lines 113-118): lazily fetches
the currency list when it is empty, then returns the codes. -/
def ExchangeRate.getCurrencies (s : ExchangeRateState) (net : Net) :
    List String × ExchangeRateState × Net :=
  let p := if s.currencies.length = 0 then ExchangeRate.fetchCurrencies s net else (s, net)
  (p.1.currencies.map (fun c => c.code), p.1, p.2)

/-- The `getCurrenciesWithNames` method (`part_001` lines 124-129): lazily
fetches the currency list when it is empty, then returns it. -/
def ExchangeRate.getCurrenciesWithNames (s : ExchangeRateState) (net : Net) :
    List Currency × ExchangeRateState × Net :=
  let p := if s.currencies.length = 0 then ExchangeRate.fetchCurrencies s net else (s, net)
  (p.1.currencies, p.1, p.2)

/-- The well-formedness test the host formatting facility applies to a
currency code: exactly three ASCII letters (ECMA-402
`IsWellFormedCurrencyCode`). -/
def isWellFormedCurrencyCode (c : String) : Bool :=
  c.length = 3 && c.toList.all (fun ch => ch.isAlpha)

/-- Modelled from the spec: the "host platform's locale-aware number
formatting facility" (`Intl.NumberFormat` with style `"currency"`), which
is external to the repository. Per its governing standard it raises a
`RangeError` when the requested currency code is not well formed (three
ASCII letters) and otherwise returns a formatted string; the rendered text
itself is host locale data and is abstracted as a deterministic string. -/
def intlNumberFormat (lang : String) (currency : String) (value : ℚ) :
    Except String String :=
  if isWellFormedCurrencyCode currency then
    Except.ok (lang ++ " " ++ currency ++ " " ++ toString value)
  else Except.error "RangeError: invalid currency code"

/-- The immutable field of `CurrencyFormat` (`currencyFormat.tsx` line 2). -/
structure CurrencyFormat where
  lang : String
deriving DecidableEq, Repr

/-- The `CurrencyFormat` constructor (`currencyFormat.tsx` lines 9-14). -/
def CurrencyFormat.construct (lang : String) : Except String CurrencyFormat :=
  if lang = "" then Except.error "Language code is required."
  else Except.ok { lang := lang }

/-- The `format` method (`currencyFormat.tsx` lines 23-32): throws when the
currency code is falsy (empty), otherwise delegates to the host facility. -/
def CurrencyFormat.format (f : CurrencyFormat) (value : ℚ) (currency : String) :
    Except String String :=
  if currency = "" then Except.error "Currency code is required."
  else intlNumberFormat f.lang currency value

/-- Boolean success test for an `Except` result. -/
def exceptIsOk {ε α : Type} : Except ε α → Bool
  | Except.ok _ => true
  | Except.error _ => false

/-- A service state whose currency list holds "USD" and "BRL" and whose
rate cache is empty, as after a successful supported-codes fetch. -/
def sampleState : ExchangeRateState :=
  { exchangeRateApiKey := some "key"
    currencies := [{ code := "USD", name := "United States Dollar" },
                   { code := "BRL", name := "Brazilian Real" }]
    rates := fun _ => none
    updatedAt := none }

end ExchangeRateApp

namespace ExchangeRateApp

/-- A fresh service state as produced by the constructor: empty currency
list, empty rate cache, `updatedAt` unset. -/
def freshState : ExchangeRateState :=
  { exchangeRateApiKey := some "key"
    currencies := []
    rates := fun _ => none
    updatedAt := none }

/-- A network delivering one successful latest-rates response with
`conversion_rates = \x7bBRL: 5\x7d`. -/
def netBRL5 : Net :=
  { responses := [some (ApiData.ratesData "success" [("BRL", (5 : ℚ))])]
    fetched := [] }

/-- A network delivering one successful latest-rates response whose table
maps "BRL" to the rate `0`. -/
def netZeroBRL : Net :=
  { responses := [some (ApiData.ratesData "success" [("BRL", (0 : ℚ))])]
    fetched := [] }

/-- A network delivering two successful latest-rates responses in a row,
with different tables. -/
def netTwoRates : Net :=
  { responses := [some (ApiData.ratesData "success" [("BRL", (5 : ℚ))]),
                  some (ApiData.ratesData "success" [("BRL", (6 : ℚ))])]
    fetched := [] }

/-- A network delivering a successful latest-rates response followed by a
response whose `result` field is not "success". -/
def netSuccessThenFail : Net :=
  { responses := [some (ApiData.ratesData "success" [("BRL", (5 : ℚ))]),
                  some (ApiData.ratesData "error" [])]
    fetched := [] }

/-- A network delivering a transport failure first and a successful
supported-codes response second. -/
def netFailThenCodes : Net :=
  { responses := [none,
                  some (ApiData.codesData "success" [("USD", "United States Dollar")])]
    fetched := [] }

/-- A network holding one successful supported-codes response. -/
def netCodesOnly : Net :=
  { responses := [some (ApiData.codesData "success"
                    [("USD", "United States Dollar"), ("BRL", "Brazilian Real")])]
    fetched := [] }

/-- The value a pending provider response contributes as a successful
latest-rates payload: the table when it is a `ratesData` document with
`result = "success"`, and `none` otherwise. -/
def responseSuccessRates : Option ApiData → Option ConversionRates
  | some (ApiData.ratesData result cr) => if result = "success" then some cr else none
  | _ => none

/-- C1 (counterexample): the claim quantifies over every rate `r` in the
obtained table, but at `r = 0` `convert` throws "Exchange rate not found"
(`if (!rate)` treats a zero rate as falsy) instead of returning
`amount * 0 = 0`. -/
theorem C1_counterexample :
    (ExchangeRate.convert "USD" "BRL" 10 0 sampleState netZeroBRL).1
      ≠ Except.ok (some ((10 : ℚ) * 0)) := by
  intro h
  have h0 : (ExchangeRate.convert "USD" "BRL" 10 0 sampleState netZeroBRL).1
      = Except.error ("Exchange rate not found for " ++ "USD" ++ " to " ++ "BRL") := by
    rfl
  rw [h0] at h
  exact Except.noConfusion h

/-- C1 (amended): for `from` and `to` both in the cached currency list and
`amount ≥ 0`, if the rate table obtained for `from` contains an entry for
`to` with NONZERO rate `r`, then `convert from to amount` returns
`amount * r`. -/
theorem C1_amended_convert_multiplies (fr tgt : String) (amount r : ℚ) (now : Int)
    (s : ExchangeRateState) (net : Net) (tbl : ConversionRates)
    (hamt : 0 ≤ amount)
    (hfr : hasCode s.currencies fr = true)
    (htgt : hasCode s.currencies tgt = true)
    (htbl : (ExchangeRate.fetchRates fr now s net).1 = some tbl)
    (hrate : tbl.lookup tgt = some r)
    (hr0 : r ≠ 0) :
    (ExchangeRate.convert fr tgt amount now s net).1 = Except.ok (some (amount * r)) := by
  simp [ExchangeRate.convert, hfr, htgt, htbl, hrate, hr0]

/-- C1 (witness): the amended theorem applied at the cached USD/BRL list,
a fetched table mapping "BRL" to 5, and amount 10. -/
theorem C1_amended_witness :
    (ExchangeRate.convert "USD" "BRL" 10 0 sampleState netBRL5).1
      = Except.ok (some ((10 : ℚ) * 5)) :=
  C1_amended_convert_multiplies "USD" "BRL" 10 5 0 sampleState netBRL5
    [("BRL", (5 : ℚ))] (by norm_num) (by decide) (by decide) (by rfl) (by rfl)
    (by norm_num)

/-- C2 (code bug, evaluated): `updatedAt` is never assigned by the source,
so the freshness guard in `fetchRates` is always true. After a successful
fetch for "USD" at time 0, a second `fetchRates "USD"` call at time 1000
(well inside the 3,600,000 ms window) performs a second network fetch and
overwrites the cached table, returning the new one, where the claim says
no fetch occurs and the cached table is returned unchanged. -/
theorem C2_refetch_within_window :
    (ExchangeRate.fetchRates "USD" 0 sampleState netTwoRates).1
        = some [("BRL", (5 : ℚ))]
    ∧ (ExchangeRate.fetchRates "USD" 1000
        (ExchangeRate.fetchRates "USD" 0 sampleState netTwoRates).2.1
        (ExchangeRate.fetchRates "USD" 0 sampleState netTwoRates).2.2).2.2.fetched
        = ["/latest/USD", "/latest/USD"]
    ∧ (ExchangeRate.fetchRates "USD" 1000
        (ExchangeRate.fetchRates "USD" 0 sampleState netTwoRates).2.1
        (ExchangeRate.fetchRates "USD" 0 sampleState netTwoRates).2.2).1
        = some [("BRL", (6 : ℚ))] := by
  decide

/-- C3: whenever `from` or `to` is absent from the cached currency list,
`convert` throws an "Invalid currency" error and does not return a numeric
result. -/
theorem C3_invalid_currency_throws (fr tgt : String) (amount : ℚ) (now : Int)
    (s : ExchangeRateState) (net : Net)
    (h : hasCode s.currencies fr = false ∨ hasCode s.currencies tgt = false) :
    (ExchangeRate.convert fr tgt amount now s net).1
        = Except.error ("Invalid currency: " ++ fr)
    ∨ (ExchangeRate.convert fr tgt amount now s net).1
        = Except.error ("Invalid currency: " ++ tgt) := by
  rcases h with h | h
  · left
    simp [ExchangeRate.convert, h]
  · by_cases hfr : hasCode s.currencies fr
    · right
      simp [ExchangeRate.convert, hfr, h]
    · left
      simp [ExchangeRate.convert, hfr]

/-- C3 (witness): "EUR" is not in the cached USD/BRL list, so converting
from it throws an "Invalid currency" error. -/
theorem C3_witness :
    (ExchangeRate.convert "EUR" "BRL" 10 0 sampleState netBRL5).1
        = Except.error ("Invalid currency: " ++ "EUR")
    ∨ (ExchangeRate.convert "EUR" "BRL" 10 0 sampleState netBRL5).1
        = Except.error ("Invalid currency: " ++ "BRL") :=
  C3_invalid_currency_throws "EUR" "BRL" 10 0 sampleState netBRL5 (Or.inl (by decide))

/-- C4 (counterexample): after a successful fetch cached a table for "USD",
a later `fetchRates "USD"` whose provider response is not a success returns
the stale cached table (`this.rates[code] || null`), not `null`: the second
call does perform a fetch (two logged fetches) whose response has
`result = "error"`, yet the result is `some` table. -/
theorem C4_counterexample :
    (ExchangeRate.fetchRates "USD" 1000
        (ExchangeRate.fetchRates "USD" 0 sampleState netSuccessThenFail).2.1
        (ExchangeRate.fetchRates "USD" 0 sampleState netSuccessThenFail).2.2).2.2.fetched.length
        = 2
    ∧ (ExchangeRate.fetchRates "USD" 1000
        (ExchangeRate.fetchRates "USD" 0 sampleState netSuccessThenFail).2.1
        (ExchangeRate.fetchRates "USD" 0 sampleState netSuccessThenFail).2.2).1
        ≠ none := by
  decide

/-- C4 (amended): when the pending provider response is not a successful
latest-rates payload AND no table is already cached for the base, a
`fetchRates` call (performed because `updatedAt` is unset) returns `null`,
and `convert` between valid codes with that base returns `null` instead of
throwing. -/
theorem C4_amended_fail_no_cache (fr tgt : String) (amount : ℚ) (now : Int)
    (s : ExchangeRateState) (net : Net)
    (hupd : s.updatedAt = none)
    (hcache : s.rates fr = none)
    (hfail : responseSuccessRates (net.responses.headD none) = none)
    (hfr : hasCode s.currencies fr = true)
    (htgt : hasCode s.currencies tgt = true) :
    (ExchangeRate.fetchRates fr now s net).1 = none
    ∧ (ExchangeRate.convert fr tgt amount now s net).1 = Except.ok none := by
  have hf : (ExchangeRate.fetchRates fr now s net).1 = none := by
    rcases hresp : net.responses with _ | ⟨r, rest⟩
    · simp [ExchangeRate.fetchRates, hupd, fetchApiData, hresp, hcache]
    · rcases r with _ | a
      · simp [ExchangeRate.fetchRates, hupd, fetchApiData, hresp, hcache]
      · rcases a with ⟨res, codes⟩ | ⟨res, cr⟩
        · simp [ExchangeRate.fetchRates, hupd, fetchApiData, hresp, hcache]
        · have hres : ¬ res = "success" := by
            intro hcontra
            rw [hresp] at hfail
            simp [responseSuccessRates, hcontra] at hfail
          simp [ExchangeRate.fetchRates, hupd, fetchApiData, hresp, hcache, hres]
  exact ⟨hf, by simp [ExchangeRate.convert, hfr, htgt, hf]⟩

/-- C4 (witness): the amended theorem applied to a fresh rate cache and a
provider response with `result = "error"`. -/
theorem C4_amended_witness :
    (ExchangeRate.fetchRates "USD" 0 sampleState
        { responses := [some (ApiData.ratesData "error" [])], fetched := [] }).1 = none
    ∧ (ExchangeRate.convert "USD" "BRL" 10 0 sampleState
        { responses := [some (ApiData.ratesData "error" [])], fetched := [] }).1
        = Except.ok none :=
  C4_amended_fail_no_cache "USD" "BRL" 10 0 sampleState
    { responses := [some (ApiData.ratesData "error" [])], fetched := [] }
    (by rfl) (by rfl) (by rfl) (by decide) (by decide)

end ExchangeRateApp

namespace ExchangeRateApp

/-- C5 (counterexample): on a fresh service state whose currency list has
never been populated, `convert` performs NO network fetch (no lazy load of
the currency list, although a valid supported-codes response is pending)
and immediately throws "Invalid currency" for the `from` code. -/
theorem C5_counterexample :
    (ExchangeRate.convert "USD" "BRL" 1 0 freshState netCodesOnly).1
        = Except.error ("Invalid currency: " ++ "USD")
    ∧ (ExchangeRate.convert "USD" "BRL" 1 0 freshState netCodesOnly).2.2.fetched = [] := by
  constructor
  · rfl
  · rfl

/-- C5 (amended): `convert` does not trigger a lazy load of the currency
list; it validates against whatever list is cached at call time, so when
that list is empty every `convert` call throws "Invalid currency" for the
`from` code and leaves the network untouched. -/
theorem C5_amended_no_lazy_load (fr tgt : String) (amount : ℚ) (now : Int)
    (s : ExchangeRateState) (net : Net)
    (hempty : s.currencies = []) :
    (ExchangeRate.convert fr tgt amount now s net).1
        = Except.error ("Invalid currency: " ++ fr)
    ∧ (ExchangeRate.convert fr tgt amount now s net).2.2 = net := by
  have h : hasCode s.currencies fr = false := by
    simp [hasCode, hempty]
  constructor
  · simp [ExchangeRate.convert, h]
  · simp [ExchangeRate.convert, h]

/-- C5 (witness): the amended theorem applied to the fresh state. -/
theorem C5_amended_witness :
    (ExchangeRate.convert "USD" "BRL" 1 0 freshState netCodesOnly).1
        = Except.error ("Invalid currency: " ++ "USD")
    ∧ (ExchangeRate.convert "USD" "BRL" 1 0 freshState netCodesOnly).2.2 = netCodesOnly :=
  C5_amended_no_lazy_load "USD" "BRL" 1 0 freshState netCodesOnly (by rfl)

/-- C6 (counterexample): two consecutive `getCurrencies` calls on the same
instance with no cache invalidation fetch `/codes` twice when the first
call's fetch fails (the list stays empty, so the second call fetches
again). -/
theorem C6_counterexample :
    (ExchangeRate.getCurrencies
        (ExchangeRate.getCurrencies freshState netFailThenCodes).2.1
        (ExchangeRate.getCurrencies freshState netFailThenCodes).2.2).2.2.fetched
      = ["/codes", "/codes"] := by
  decide

/-- C6 (helper): `getCurrencies` leaves the network untouched whenever the
resulting currency list is nonempty going in. -/
theorem getCurrencies_no_fetch_of_nonempty (s : ExchangeRateState) (net : Net)
    (h : s.currencies ≠ []) :
    (ExchangeRate.getCurrencies s net).2.2 = net := by
  simp [ExchangeRate.getCurrencies, List.length_eq_zero, h]

/-- C6 (helper): one `getCurrencies` call performs at most one network
fetch. -/
theorem getCurrencies_at_most_one_fetch (s : ExchangeRateState) (net : Net) :
    (ExchangeRate.getCurrencies s net).2.2.fetched.length ≤ net.fetched.length + 1 := by
  by_cases h : s.currencies.length = 0
  · have hlen : (ExchangeRate.fetchCurrencies s net).2.fetched = "/codes" :: net.fetched := by
      unfold ExchangeRate.fetchCurrencies fetchApiData
      rcases net.responses with _ | ⟨r, rest⟩
      · rfl
      · rcases r with _ | a
        · rfl
        · rcases a with ⟨res, codes⟩ | ⟨res, cr⟩
          · dsimp only
            split
            · rfl
            · rfl
          · rfl
    simp [ExchangeRate.getCurrencies, h, hlen]
  · simp [ExchangeRate.getCurrencies, h]

/-- C6 (amended): the first `getCurrencies` call performs at most one
network fetch, and provided it leaves a nonempty cached currency list (as
after a successful fetch of a nonempty `supported_codes`), the second call
performs no fetch at all, so at most one fetch occurs across the two
calls. -/
theorem C6_amended_at_most_one_fetch (s : ExchangeRateState) (net : Net)
    (h : (ExchangeRate.getCurrencies s net).2.1.currencies ≠ []) :
    (ExchangeRate.getCurrencies
        (ExchangeRate.getCurrencies s net).2.1
        (ExchangeRate.getCurrencies s net).2.2).2.2
      = (ExchangeRate.getCurrencies s net).2.2
    ∧ (ExchangeRate.getCurrencies s net).2.2.fetched.length ≤ net.fetched.length + 1 :=
  ⟨getCurrencies_no_fetch_of_nonempty _ _ h, getCurrencies_at_most_one_fetch s net⟩

/-- C6 (witness): the amended theorem applied to a first call that
populates the list from a successful supported-codes response. -/
theorem C6_amended_witness :
    (ExchangeRate.getCurrencies
        (ExchangeRate.getCurrencies freshState netCodesOnly).2.1
        (ExchangeRate.getCurrencies freshState netCodesOnly).2.2).2.2
      = (ExchangeRate.getCurrencies freshState netCodesOnly).2.2
    ∧ (ExchangeRate.getCurrencies freshState netCodesOnly).2.2.fetched.length
      ≤ netCodesOnly.fetched.length + 1 :=
  C6_amended_at_most_one_fetch freshState netCodesOnly (by decide)

/-- C7: with "USD" and "BRL" in the cached currency list and the provider
returning a success document with `conversion_rates = \x7bBRL: 5\x7d` for base
"USD", `convert "USD" "BRL" 10` returns 50. -/
theorem C7_concrete_conversion :
    (ExchangeRate.convert "USD" "BRL" 10 0 sampleState netBRL5).1
      = Except.ok (some (50 : ℚ)) := by
  have h : (ExchangeRate.convert "USD" "BRL" 10 0 sampleState netBRL5).1
      = Except.ok (some ((10 : ℚ) * 5)) := by
    rfl
  rw [h]
  norm_num

end ExchangeRateApp

namespace ExchangeRateApp

/-- C8 (counterexample): "ZZZZ" is a non-empty currency code, yet
`format 0 "ZZZZ"` fails: the host formatting facility rejects the
ill-formed code with a `RangeError`, so emptiness is not the only failure
mode. -/
theorem C8_counterexample :
    ¬ ("ZZZZ" = "")
    ∧ CurrencyFormat.format { lang := "pt-BR" } 0 "ZZZZ"
        = Except.error "RangeError: invalid currency code" := by
  constructor
  · decide
  · rfl

/-- C8 (amended): `format value currencyCode` succeeds exactly when
`currencyCode` is a well-formed three-ASCII-letter code (the empty string
being one of the ill-formed codes it rejects); for every well-formed code
it returns a string, and for every ill-formed one it fails. -/
theorem C8_amended_format_ok_iff_wellformed (f : CurrencyFormat) (value : ℚ)
    (currency : String) :
    exceptIsOk (CurrencyFormat.format f value currency)
      = isWellFormedCurrencyCode currency := by
  by_cases h : currency = ""
  · subst h
    rfl
  · by_cases hw : isWellFormedCurrencyCode currency
    · simp [CurrencyFormat.format, h, intlNumberFormat, hw, exceptIsOk]
    · simp [CurrencyFormat.format, h, intlNumberFormat, hw, exceptIsOk]

/-- C9: when `from` and `to` are both in the cached currency list and the
table obtained for `from` maps `to` to the rate `0`, `convert` throws
"Exchange rate not found" even though the key is present: a zero rate is
indistinguishable from an absent one under the falsy test `if (!rate)`. -/
theorem C9_zero_rate_throws (fr tgt : String) (amount : ℚ) (now : Int)
    (s : ExchangeRateState) (net : Net) (tbl : ConversionRates)
    (hfr : hasCode s.currencies fr = true)
    (htgt : hasCode s.currencies tgt = true)
    (htbl : (ExchangeRate.fetchRates fr now s net).1 = some tbl)
    (hzero : tbl.lookup tgt = some 0) :
    (ExchangeRate.convert fr tgt amount now s net).1
      = Except.error ("Exchange rate not found for " ++ fr ++ " to " ++ tgt) := by
  simp [ExchangeRate.convert, hfr, htgt, htbl, hzero]

/-- C9 (witness): the theorem applied at a fetched table mapping "BRL" to
the rate 0. -/
theorem C9_witness :
    (ExchangeRate.convert "USD" "BRL" 10 0 sampleState netZeroBRL).1
      = Except.error ("Exchange rate not found for " ++ "USD" ++ " to " ++ "BRL") :=
  C9_zero_rate_throws "USD" "BRL" 10 0 sampleState netZeroBRL [("BRL", (0 : ℚ))]
    (by decide) (by decide) (by rfl) (by rfl)

/-- C10: a `fetchRates code` call leaves the cached currency list, the API
key, the `updatedAt` timestamp and the rate-table entries of every other
base currency unchanged: at most the entry keyed by `code` is mutated. -/
theorem C10_fetchRates_frame (code : String) (now : Int)
    (s : ExchangeRateState) (net : Net) :
    (ExchangeRate.fetchRates code now s net).2.1.currencies = s.currencies
    ∧ (ExchangeRate.fetchRates code now s net).2.1.exchangeRateApiKey
        = s.exchangeRateApiKey
    ∧ (ExchangeRate.fetchRates code now s net).2.1.updatedAt = s.updatedAt
    ∧ ∀ k, k ≠ code → (ExchangeRate.fetchRates code now s net).2.1.rates k
        = s.rates k := by
  unfold ExchangeRate.fetchRates
  dsimp only
  split
  · split
    · split
      · refine ⟨rfl, rfl, rfl, fun k hk => ?_⟩
        simp [hk]
      · exact ⟨rfl, rfl, rfl, fun k hk => rfl⟩
    · exact ⟨rfl, rfl, rfl, fun k hk => rfl⟩
  · exact ⟨rfl, rfl, rfl, fun k hk => rfl⟩

/-- C10 (witness): the frame theorem applied at a successful fetch for base
"USD", read back at the distinct key "EUR". -/
theorem C10_witness :
    (ExchangeRate.fetchRates "USD" 0 sampleState netBRL5).2.1.currencies
        = sampleState.currencies
    ∧ (ExchangeRate.fetchRates "USD" 0 sampleState netBRL5).2.1.rates "EUR"
        = sampleState.rates "EUR" :=
  ⟨(C10_fetchRates_frame "USD" 0 sampleState netBRL5).1,
   (C10_fetchRates_frame "USD" 0 sampleState netBRL5).2.2.2 "EUR" (by decide)⟩

end ExchangeRateApp
